import Mathlib

/-!
Verification development for the muuuxy HLS reverse proxy (src/main.rs).

The single request handler `proxy` is shallowly embedded below.  Pure
helpers of its external crates are modelled concretely where a claim needs
their concrete behavior:

* `percent_encoding::utf8_percent_encode(_, NON_ALPHANUMERIC).to_string()`
  is modelled byte-for-byte (`percentEncodeNAN`): every byte of the UTF-8
  encoding of the string that is not an ASCII letter or digit is written
  as an uppercase `%XX` escape.
* The `url` crate's `Url::parse` / `Display` / `path_segments_mut().pop()`
  are modelled (`UrlM`) for hierarchical `scheme://host[:port]/path?query`
  URLs, the shape of every URL the handler manipulates.  Non-special
  schemes (e.g. `mailto:`), fragments and bracketed IPv6 host literals are
  outside the modelled subset; on the modelled subset parse, serialization
  and segment-pop follow the crate: the serialization always writes a `/`
  after the authority, a default port (80 for http, 443 for https) is
  dropped, and `pop` removes the last path segment.
* `std::net::Ipv4Addr` / `Ipv6Addr` classification predicates are
  modelled from their documented definitions.

Network effects (the `http::Uri` parse result, DNS resolution, the
outbound fetch) and the `m3u8` crate's `parse_playlist` / `write_to` are
oracles passed to the embedded handler as explicit arguments; the handler
records in `Effects` which network actions it performed.  A `.unwrap()`
that can fail on the modelled path is embedded as the `Outcome.panicked`
terminal state, distinct from every HTTP response.
-/

/-! ## UTF-8 bytes of a string -/

/-- UTF-8 encoding of a single code point, as a list of byte values. -/
def utf8Char (c : Char) : List Nat :=
  if c.toNat < 128 then [c.toNat]
  else if c.toNat < 2048 then [192 + c.toNat / 64, 128 + c.toNat % 64]
  else if c.toNat < 65536 then
    [224 + c.toNat / 4096, 128 + (c.toNat / 64) % 64, 128 + c.toNat % 64]
  else
    [240 + c.toNat / 262144, 128 + (c.toNat / 4096) % 64,
     128 + (c.toNat / 64) % 64, 128 + c.toNat % 64]

/-- UTF-8 encoding of a list of characters. -/
def utf8Chars : List Char → List Nat
  | [] => []
  | c :: cs => utf8Char c ++ utf8Chars cs

/-- UTF-8 encoding of a string, the byte sequence Rust's `&str` stores. -/
def utf8Bytes (s : String) : List Nat :=
  utf8Chars s.data

/-! ## Percent-encoding with the `NON_ALPHANUMERIC` ascii set -/

/-- Is the byte an ASCII letter or digit?  These are exactly the bytes the
`NON_ALPHANUMERIC` set leaves unescaped. -/
def isAsciiAlnum (b : Nat) : Bool :=
  (48 ≤ b && b ≤ 57) || (65 ≤ b && b ≤ 90) || (97 ≤ b && b ≤ 122)

/-- Uppercase hexadecimal digit for a value below 16. -/
def hexDigit (n : Nat) : Char :=
  if n < 10 then Char.ofNat (48 + n) else Char.ofNat (55 + n)

/-- Percent-encode one byte: alphanumeric bytes stand for themselves, every
other byte becomes an uppercase `%XX` escape. -/
def encodeByte (b : Nat) : List Char :=
  if isAsciiAlnum b then [Char.ofNat b]
  else ['%', hexDigit (b / 16), hexDigit (b % 16)]

/-- Percent-encode a byte sequence. -/
def pctEncodeBytes : List Nat → List Char
  | [] => []
  | b :: bs => encodeByte b ++ pctEncodeBytes bs

/-- Model of `utf8_percent_encode(s, NON_ALPHANUMERIC).to_string()`. -/
def percentEncodeNAN (s : String) : String :=
  ⟨pctEncodeBytes (utf8Bytes s)⟩

/-- Value of a hexadecimal digit character, accepting both cases. -/
def hexVal? (c : Char) : Option Nat :=
  if 48 ≤ c.toNat && c.toNat ≤ 57 then some (c.toNat - 48)
  else if 65 ≤ c.toNat && c.toNat ≤ 70 then some (c.toNat - 55)
  else if 97 ≤ c.toNat && c.toNat ≤ 102 then some (c.toNat - 87)
  else none

/-- Percent-decode a character sequence to the byte sequence it denotes:
`%XX` contributes the escaped byte, any other character contributes its
UTF-8 bytes.  Fails on a truncated or non-hexadecimal escape. -/
def pctDecodeChars : List Char → Option (List Nat)
  | [] => some []
  | c :: rest =>
    if c = '%' then
      match rest with
      | h :: l :: rest2 =>
        match hexVal? h, hexVal? l, pctDecodeChars rest2 with
        | some hv, some lv, some tail => some ((16 * hv + lv) :: tail)
        | _, _, _ => none
      | _ => none
    else
      (pctDecodeChars rest).map (fun tail => utf8Char c ++ tail)

/-- Percent-decode a string to the byte sequence it denotes. -/
def pctDecode (s : String) : Option (List Nat) :=
  pctDecodeChars s.data

/-! ## Model of the `url` crate on hierarchical URLs -/

/-- Split a character list at the first `"://"`, returning the part before
it and the part after it; fails when no `"://"` occurs. -/
def splitSchemeRest : List Char → Option (List Char × List Char)
  | ':' :: '/' :: '/' :: rest => some ([], rest)
  | c :: rest =>
    match splitSchemeRest rest with
    | some (sch, r) => some (c :: sch, r)
    | none => none
  | [] => none

/-- Take characters until the predicate holds, returning the taken part and
the remainder (which starts with the first matching character, if any). -/
def spanUntil (p : Char → Bool) : List Char → List Char × List Char
  | [] => ([], [])
  | c :: rest =>
    if p c then ([], c :: rest)
    else
      let (taken, rem) := spanUntil p rest
      (c :: taken, rem)

/-- Split a character list on every occurrence of a separator. -/
def splitChar (sep : Char) : List Char → List (List Char)
  | [] => [[]]
  | c :: rest =>
    if c = sep then [] :: splitChar sep rest
    else
      match splitChar sep rest with
      | h :: t => (c :: h) :: t
      | [] => [[c]]

/-- A scheme is valid when non-empty, it starts with an ASCII letter and
continues with ASCII letters, digits, `+`, `-` or `.`. -/
def validScheme : List Char → Bool
  | [] => false
  | c :: rest =>
    c.isAlpha && rest.all (fun d => d.isAlphanum || d = '+' || d = '-' || d = '.')

/-- Parse a list of decimal digit characters; fails on a non-digit. -/
def digitsToNat? (l : List Char) : Option Nat :=
  if l.all Char.isDigit then
    some (l.foldl (fun acc c => acc * 10 + (c.toNat - 48)) 0)
  else none

/-- Model of a parsed `url::Url` restricted to the hierarchical subset the
handler manipulates: scheme, host, optional explicit port, the path as a
list of segments, and an optional query string. -/
structure UrlM where
  scheme : String
  host : String
  port : Option Nat
  segs : List String
  query : Option String
deriving DecidableEq

/-- Model of `url::Url::parse` on `scheme://host[:port][/path][?query]`.
Mirrors the crate on this subset: the authority must be non-empty, an
invalid port is a parse error, and a port equal to the scheme's default
(80 for `http`, 443 for `https`) is dropped.  A string with no `"://"`
(in particular every relative reference) fails to parse. -/
def UrlM.parse (s : String) : Option UrlM :=
  match splitSchemeRest s.data with
  | none => none
  | some (sch, rest) =>
    if validScheme sch then
      let (hostport, rest2) := spanUntil (fun c => c = '/' || c = '?') rest
      if hostport = [] then none
      else
        let (hostCs, portPart) := spanUntil (fun c => c = ':') hostport
        let portParsed : Option (Option Nat) :=
          match portPart with
          | [] => some none
          | _ :: [] => some none
          | _ :: ds =>
            match digitsToNat? ds with
            | some p => if p < 65536 then some (some p) else none
            | none => none
        match portParsed with
        | none => none
        | some port0 =>
          let schemeStr : String := ⟨sch⟩
          let port : Option Nat :=
            match port0 with
            | some 80 => if schemeStr = "http" then none else some 80
            | some 443 => if schemeStr = "https" then none else some 443
            | other => other
          let (segs, query) :=
            match rest2 with
            | '/' :: pathRest =>
              let (pathCs, queryRest) := spanUntil (fun c => c = '?') pathRest
              let q : Option String :=
                match queryRest with
                | _ :: qcs => some ⟨qcs⟩
                | [] => none
              ((splitChar '/' pathCs).map (fun l => (⟨l⟩ : String)), q)
            | '?' :: qcs => ([""], some ⟨qcs⟩)
            | _ => ([""], none)
          some { scheme := schemeStr, host := ⟨hostCs⟩, port := port,
                 segs := segs, query := query }
    else none

/-- Model of the `url::Url` serialization (`Display` / `to_string`): the
path always starts with `/` after the authority, and an explicit
non-default port is printed after the host. -/
def UrlM.toString (u : UrlM) : String :=
  u.scheme ++ "://" ++ u.host ++
    (match u.port with
     | some p => ":" ++ Nat.repr p
     | none => "") ++
    "/" ++ String.intercalate "/" u.segs ++
    (match u.query with
     | some q => "?" ++ q
     | none => "")

/-- Model of `path_segments_mut().pop()`: remove the last path segment. -/
def UrlM.popSegment (u : UrlM) : UrlM :=
  { u with segs := u.segs.dropLast }

/-! ## Address model (`std::net`) -/

/-- An IPv4 address as four octets. -/
structure Ipv4 where
  o1 : Nat
  o2 : Nat
  o3 : Nat
  o4 : Nat
deriving DecidableEq

/-- Model of `Ipv4Addr::is_loopback`: 127.0.0.0/8. -/
def Ipv4.is_loopback (ip : Ipv4) : Bool := ip.o1 = 127

/-- Model of `Ipv4Addr::is_private`: 10/8, 172.16/12, 192.168/16. -/
def Ipv4.is_private (ip : Ipv4) : Bool :=
  ip.o1 = 10 || (ip.o1 = 172 && 16 ≤ ip.o2 && ip.o2 ≤ 31) || (ip.o1 = 192 && ip.o2 = 168)

/-- Model of `Ipv4Addr::is_link_local`: 169.254.0.0/16. -/
def Ipv4.is_link_local (ip : Ipv4) : Bool := ip.o1 = 169 && ip.o2 = 254

/-- Model of `Ipv4Addr::is_multicast`: 224.0.0.0/4. -/
def Ipv4.is_multicast (ip : Ipv4) : Bool := 224 ≤ ip.o1 && ip.o1 ≤ 239

/-- Model of `Ipv4Addr::is_broadcast`: 255.255.255.255. -/
def Ipv4.is_broadcast (ip : Ipv4) : Bool :=
  ip.o1 = 255 && ip.o2 = 255 && ip.o3 = 255 && ip.o4 = 255

/-- Model of `Ipv4Addr::is_unspecified`: 0.0.0.0. -/
def Ipv4.is_unspecified (ip : Ipv4) : Bool :=
  ip.o1 = 0 && ip.o2 = 0 && ip.o3 = 0 && ip.o4 = 0

/-- An IPv6 address as eight 16-bit segments. -/
structure Ipv6 where
  s0 : Nat
  s1 : Nat
  s2 : Nat
  s3 : Nat
  s4 : Nat
  s5 : Nat
  s6 : Nat
  s7 : Nat
deriving DecidableEq

/-- Model of `Ipv6Addr::is_loopback`: `::1`. -/
def Ipv6.is_loopback (ip : Ipv6) : Bool :=
  ip.s0 = 0 && ip.s1 = 0 && ip.s2 = 0 && ip.s3 = 0 &&
  ip.s4 = 0 && ip.s5 = 0 && ip.s6 = 0 && ip.s7 = 1

/-- Model of `Ipv6Addr::is_multicast`: `ff00::/8`. -/
def Ipv6.is_multicast (ip : Ipv6) : Bool :=
  ip.s0 / 256 = 255

/-- Model of `Ipv6Addr::is_unspecified`: `::`. -/
def Ipv6.is_unspecified (ip : Ipv6) : Bool :=
  ip.s0 = 0 && ip.s1 = 0 && ip.s2 = 0 && ip.s3 = 0 &&
  ip.s4 = 0 && ip.s5 = 0 && ip.s6 = 0 && ip.s7 = 0

/-- A resolved address, as produced by `lookup_host(..).ip()`. -/
inductive IpAddr where
  | v4 (ip : Ipv4)
  | v6 (ip : Ipv6)
deriving DecidableEq

/-- The SSRF guard condition of the handler's resolution loop
(main.rs lines 151-194): the exact disjunction of classification
predicates the code tests for each address family. -/
def IpAddr.forbidden : IpAddr → Bool
  | .v4 ip =>
    ip.is_loopback || ip.is_private || ip.is_link_local ||
    ip.is_multicast || ip.is_broadcast || ip.is_unspecified
  | .v6 ip =>
    ip.is_loopback || ip.is_multicast || ip.is_unspecified

/-! ## Playlist model (`m3u8` crate interface) -/

/-- A master-playlist variant entry; only `uri` is touched by the handler,
every other field is kept opaque in `attrs`. -/
structure VariantStream where
  uri : String
  attrs : String
deriving DecidableEq

/-- A media-playlist segment entry; only `uri` is touched by the handler,
every other field is kept opaque in `attrs`. -/
structure MediaSegment where
  uri : String
  attrs : String
deriving DecidableEq

/-- The closed playlist union of the `m3u8` crate. -/
inductive Playlist where
  | master (variants : List VariantStream)
  | media (segments : List MediaSegment)
deriving DecidableEq

/-! ## HTTP-level model -/

/-- Response body: empty, a diagnostic string, or raw bytes. -/
inductive RespBody where
  | empty
  | str (s : String)
  | bytes (bs : List Nat)
deriving DecidableEq

/-- An HTTP response as the handler builds it: status code, the headers
set through the builder in order, and the body. -/
structure ResponseT where
  status : Nat
  headers : List (String × String)
  body : RespBody
deriving DecidableEq

/-- Terminal state of one handler run: an HTTP response, or a panic
escaping the handler (a failed `.unwrap()`). -/
inductive Outcome where
  | response (r : ResponseT)
  | panicked (msg : String)
deriving DecidableEq

/-- Status code of an outcome, `none` for a panic. -/
def Outcome.status? : Outcome → Option Nat
  | .response r => some r.status
  | .panicked _ => none

/-- Did the run end in a panic rather than a response? -/
def Outcome.isPanicked : Outcome → Bool
  | .response _ => false
  | .panicked _ => true

/-- Network actions the handler performed during the run: whether the
target URL was handed to the `Uri` parser, the `host:port` string handed
to `lookup_host` (when DNS was queried), and whether the outbound fetch
was started. -/
structure Effects where
  uriParsed : Bool
  dnsQuery : Option String
  fetched : Bool
deriving DecidableEq

/-- The process-wide configuration (`State` in main.rs). -/
structure State where
  scheme : String
  host : String
  port : String
  domain : String
  proxy : Option String
  key : String
deriving DecidableEq

/-- The inbound query parameters (`ProxyParams` in main.rs). -/
structure ProxyParams where
  url : String
  key : String
deriving DecidableEq

/-- The scheme of a parsed `http::Uri`. -/
inductive SchemeT where
  | http
  | https
  | other (s : String)
deriving DecidableEq

/-- The pieces of the `http::Uri` parse result the handler reads. -/
structure UriT where
  scheme : Option SchemeT
  host : Option String
deriving DecidableEq

/-- Result of `client.get(url).send()` followed by `response.bytes()`:
either the request failed, or it returned a status, the optional
`content-type` header, and the body bytes (`none` when reading the body
failed). -/
inductive SendResult where
  | err
  | ok (status : Nat) (contentType : Option String) (body : Option (List Nat))
deriving DecidableEq

/-- Body-size ceiling of the handler (`HTTP_BODY_MAX_LENGTH`). -/
def HTTP_BODY_MAX_LENGTH : Nat := 50 * 1000000

/-- Outbound connect timeout in seconds (`HTTP_CONNECTION_TIMEOUT`). -/
def HTTP_CONNECTION_TIMEOUT_SECS : Nat := 5

/-- Outbound total timeout in seconds (`HTTP_TIMEOUT`). -/
def HTTP_TIMEOUT_SECS : Nat := 10

/-- Outbound user agent string (`HTTP_USER_AGENT`). -/
def HTTP_USER_AGENT : String := "muuuxy/1.0"

/-- Redirect ceiling of the outbound client (`HTTP_MAX_REDIRECTS`). -/
def HTTP_MAX_REDIRECTS : Nat := 1

/-! ## The URI rewrite of the playlist branches -/

/-- The child-URI resolution step shared by both playlist branches
(main.rs lines 304-318 and 371-385): an absolutely-parseable child is
re-serialized as-is; otherwise the original target URL is parsed (its
parse failure is a `.unwrap()` panic, hence `none`), its final path
segment is dropped, and the child is joined with `/`. -/
def rewriteChildUri (urlToProxy itemUri : String) : Option String :=
  match UrlM.parse itemUri with
  | some u => some u.toString
  | none =>
    match UrlM.parse urlToProxy with
    | some u => some (u.popSegment.toString ++ "/" ++ itemUri)
    | none => none

/-- The proxy-facing URL substituted for a resolved child URI
(main.rs lines 323-326 and 390-393). -/
def proxiedUri (state : State) (key resolved : String) : String :=
  state.scheme ++ "://" ++ state.domain ++ "/proxy?key=" ++ key ++
    "&url=" ++ percentEncodeNAN resolved

/-- Full rewrite of one child URI: resolve, percent-encode, wrap in the
proxy URL.  `none` when the resolution step panics. -/
def rewriteItemUri (state : State) (key urlToProxy itemUri : String) : Option String :=
  (rewriteChildUri urlToProxy itemUri).map (proxiedUri state key)

/-- Rewrite every variant of a master playlist in order (main.rs lines
297-330); `none` when any single rewrite panics. -/
def rewriteVariants (state : State) (key urlToProxy : String) :
    List VariantStream → Option (List VariantStream)
  | [] => some []
  | v :: rest =>
    match rewriteItemUri state key urlToProxy v.uri,
          rewriteVariants state key urlToProxy rest with
    | some u, some vs => some ({ v with uri := u } :: vs)
    | _, _ => none

/-- Rewrite every segment of a media playlist in order (main.rs lines
364-397); `none` when any single rewrite panics. -/
def rewriteSegments (state : State) (key urlToProxy : String) :
    List MediaSegment → Option (List MediaSegment)
  | [] => some []
  | s :: rest =>
    match rewriteItemUri state key urlToProxy s.uri,
          rewriteSegments state key urlToProxy rest with
    | some u, some ss => some ({ s with uri := u } :: ss)
    | _, _ => none

/-- The master-playlist branch after a successful parse (main.rs lines
294-360): rewrite the variants, serialize, then require the upstream
`content-type` header. -/
def rewriteMasterOutcome (state : State) (key urlToProxy : String)
    (variants : List VariantStream) (contentType : Option String)
    (writePl : Playlist → List Nat) : Outcome :=
  match rewriteVariants state key urlToProxy variants with
  | none => .panicked "Url parse of the target url failed inside the rewrite"
  | some nvs =>
    let buf := writePl (.master nvs)
    match contentType with
    | none =>
      .response ⟨500, [], .str "proxied url doesn't have the required content-type header"⟩
    | some ct =>
      .response ⟨200, [("content-type", ct), ("content-length", Nat.repr buf.length)],
        .bytes buf⟩

/-- The media-playlist branch after a successful parse (main.rs lines
361-427): rewrite the segments, serialize, then require the upstream
`content-type` header. -/
def rewriteMediaOutcome (state : State) (key urlToProxy : String)
    (segments : List MediaSegment) (contentType : Option String)
    (writePl : Playlist → List Nat) : Outcome :=
  match rewriteSegments state key urlToProxy segments with
  | none => .panicked "Url parse of the target url failed inside the rewrite"
  | some nss =>
    let buf := writePl (.media nss)
    match contentType with
    | none =>
      .response ⟨500, [], .str "proxied url doesn't have the required content-type header"⟩
    | some ct =>
      .response ⟨200, [("content-type", ct), ("content-length", Nat.repr buf.length)],
        .bytes buf⟩

/-- The fetch-and-rewrite tail of the handler (main.rs lines 224-428),
entered once validation passed: outbound request, status check, body-size
ceiling, playlist parse attempt, binary passthrough or playlist rewrite. -/
def fetchStage (state : State) (key urlToProxy : String) (send : SendResult)
    (parsePl : List Nat → Option Playlist) (writePl : Playlist → List Nat) : Outcome :=
  match send with
  | .err => .response ⟨500, [], .str "failed to perform request on the proxied url"⟩
  | .ok status contentType bodyRes =>
    if status ≠ 200 then
      .response ⟨500, [], .str "request to proxied server returned a non 200 status"⟩
    else
      match bodyRes with
      | none => .panicked "reading the response body failed"
      | some body =>
        if body.length > HTTP_BODY_MAX_LENGTH then
          .response ⟨500, [], .str "content length of proxied request is great than max allowed"⟩
        else
          match parsePl body with
          | none =>
            .response ⟨200,
              [("content-type", "application/octet-stream"),
               ("accept-ranges", "bytes"),
               ("content-length", Nat.repr body.length)],
              .bytes body⟩
          | some (.master vs) => rewriteMasterOutcome state key urlToProxy vs contentType writePl
          | some (.media ss) => rewriteMediaOutcome state key urlToProxy ss contentType writePl

/-- Implied port of the parsed scheme (main.rs lines 127-143): `http` maps
to 80, `https` to 443, any other or absent scheme is `none` (a 400). -/
def impliedPort : Option SchemeT → Option Nat
  | some .http => some 80
  | some .https => some 443
  | some (.other _) => none
  | none => none

/-- Headers of the SSRF-guard rejection response (main.rs lines 166-174). -/
def guardHeaders : List (String × String) :=
  [("content-type", "application/octet-stream"), ("accept-ranges", "bytes")]

/-- The embedded request handler `proxy` (main.rs lines 92-429).  The
`http::Uri` parse result, the DNS resolution and the outbound fetch are
oracles; `parsePl` and `writePl` stand for the `m3u8` crate.  Returns the
terminal outcome together with the network actions performed. -/
def proxy (state : State) (params : ProxyParams)
    (uriOracle : Option UriT) (dnsOracle : Option (List IpAddr)) (send : SendResult)
    (parsePl : List Nat → Option Playlist) (writePl : Playlist → List Nat) :
    Outcome × Effects :=
  if params.key ≠ state.key then
    (.response ⟨401, [], .str "key is invalid"⟩, ⟨false, none, false⟩)
  else if params.url = "" then
    (.response ⟨400, [], .str "path cannot be empty"⟩, ⟨false, none, false⟩)
  else if params.key = "" then
    (.response ⟨400, [], .str "key cannot be empty"⟩, ⟨false, none, false⟩)
  else
    match uriOracle with
    | none => (.panicked "Uri::from_str failed", ⟨true, none, false⟩)
    | some uri =>
      match uri.host with
      | none => (.panicked "uri has no host", ⟨true, none, false⟩)
      | some host =>
        match impliedPort uri.scheme with
        | none => (.response ⟨400, [], .empty⟩, ⟨true, none, false⟩)
        | some port =>
          let q := host ++ ":" ++ Nat.repr port
          match dnsOracle with
          | none => (.panicked "lookup_host failed", ⟨true, some q, false⟩)
          | some addrs =>
            match addrs.find? IpAddr.forbidden with
            | some _ => (.response ⟨400, guardHeaders, .empty⟩, ⟨true, some q, false⟩)
            | none =>
              (fetchStage state params.key params.url send parsePl writePl,
               ⟨true, some q, true⟩)

/-- The relation between an original child URI and its rewritten form
that claim C5 asserts: the child resolves (without panic) to an absolute
URL, the rewritten URI is the proxy URL built from it, and its `url`
query parameter percent-decodes back to that absolute URL. -/
def RewrittenUri (state : State) (key urlToProxy oldUri newUri : String) : Prop :=
  ∃ resolved,
    rewriteChildUri urlToProxy oldUri = some resolved ∧
    newUri = proxiedUri state key resolved ∧
    pctDecode (percentEncodeNAN resolved) = some (utf8Bytes resolved)

/-! ## Helper lemmas -/

set_option maxRecDepth 8192

/-- An alphanumeric byte below 256 yields a character distinct from the
escape marker whose UTF-8 encoding is the byte itself. -/
theorem alnum_byte_facts :
    ∀ b, b < 256 → isAsciiAlnum b = true →
      Char.ofNat b ≠ '%' ∧ utf8Char (Char.ofNat b) = [b] := by
  decide

/-- Decoding inverts the uppercase hexadecimal digit map on values
below 16. -/
theorem hexVal_hexDigit : ∀ n, n < 16 → hexVal? (hexDigit n) = some n := by
  decide

/-- Unfolding of `pctDecodeChars` at a non-escape character. -/
theorem pctDecodeChars_cons_ne (c : Char) (rest : List Char) (h : ¬ c = '%') :
    pctDecodeChars (c :: rest) =
      (pctDecodeChars rest).map (fun tail => utf8Char c ++ tail) := by
  rw [pctDecodeChars.eq_def]
  simp only [if_neg h]

/-- Unfolding of `pctDecodeChars` at a well-formed escape. -/
theorem pctDecodeChars_escape (h l : Char) (rest2 : List Char) (hv lv : Nat)
    (hh : hexVal? h = some hv) (hl : hexVal? l = some lv) :
    pctDecodeChars ('%' :: h :: l :: rest2) =
      (pctDecodeChars rest2).map (fun tail => (16 * hv + lv) :: tail) := by
  rw [pctDecodeChars.eq_def]
  cases ht : pctDecodeChars rest2 <;> simp [hh, hl, ht]

/-- Decoding one encoded byte prepends that byte to the decoding of the
remainder. -/
theorem pctDecodeChars_encodeByte (b : Nat) (hb : b < 256) (cs : List Char) :
    pctDecodeChars (encodeByte b ++ cs) =
      (pctDecodeChars cs).map (fun tail => b :: tail) := by
  by_cases ha : isAsciiAlnum b
  · obtain ⟨hne, hchar⟩ := alnum_byte_facts b hb ha
    simp only [encodeByte, ha, if_true, List.cons_append, List.nil_append]
    rw [pctDecodeChars_cons_ne _ _ hne]
    simp only [hchar]
    rfl
  · have hd : b / 16 < 16 := by omega
    have hm : b % 16 < 16 := by omega
    unfold encodeByte
    rw [if_neg ha]
    simp only [List.cons_append, List.nil_append]
    rw [pctDecodeChars_escape _ _ _ _ _ (hexVal_hexDigit _ hd) (hexVal_hexDigit _ hm)]
    have hbeq : 16 * (b / 16) + b % 16 = b := by omega
    rw [hbeq]

/-- Percent-decoding inverts percent-encoding on byte sequences. -/
theorem pctDecodeChars_pctEncodeBytes :
    ∀ bs : List Nat, (∀ b ∈ bs, b < 256) →
      pctDecodeChars (pctEncodeBytes bs) = some bs := by
  intro bs
  induction bs with
  | nil => intro _; rfl
  | cons b rest ih =>
    intro hlt
    have hb : b < 256 := hlt b (by simp)
    have hrest : ∀ x ∈ rest, x < 256 := fun x hx => hlt x (by simp [hx])
    simp [pctEncodeBytes, pctDecodeChars_encodeByte b hb, ih hrest]

/-- Every byte of the UTF-8 encoding of a character is below 256. -/
theorem utf8Char_lt (c : Char) : ∀ b ∈ utf8Char c, b < 256 := by
  intro b hb
  have hv : c.toNat < 1114112 := by
    have h : Nat.isValidChar c.val.toNat := c.valid
    rcases h with h | ⟨h1, h2⟩ <;> simp [Char.toNat] <;> omega
  unfold utf8Char at hb
  split_ifs at hb <;> simp at hb <;> omega

/-- Every byte of the UTF-8 encoding of a character list is below 256. -/
theorem utf8Chars_lt : ∀ cs : List Char, ∀ b ∈ utf8Chars cs, b < 256 := by
  intro cs
  induction cs with
  | nil => intro b hb; cases hb
  | cons c rest ih =>
    intro b hb
    simp only [utf8Chars, List.mem_append] at hb
    rcases hb with hb | hb
    · exact utf8Char_lt c b hb
    · exact ih b hb

/-- Round trip: percent-decoding the `NON_ALPHANUMERIC` percent-encoding
of a string recovers exactly the string's UTF-8 bytes. -/
theorem pctDecode_percentEncodeNAN (s : String) :
    pctDecode (percentEncodeNAN s) = some (utf8Bytes s) := by
  have h : ∀ b ∈ utf8Bytes s, b < 256 := utf8Chars_lt s.data
  simpa [pctDecode, percentEncodeNAN] using
    pctDecodeChars_pctEncodeBytes (utf8Bytes s) h

/-- A list containing an element satisfying the predicate makes `find?`
succeed. -/
theorem find?_isSome_of_mem {α : Type} {p : α → Bool} {l : List α}
    (h : ∃ a ∈ l, p a = true) : ∃ a, l.find? p = some a := by
  obtain ⟨a, ha, hpa⟩ := h
  induction l with
  | nil => cases ha
  | cons x xs ih =>
    by_cases hx : p x = true
    · exact ⟨x, by simp [List.find?, hx]⟩
    · rcases List.mem_cons.mp ha with rfl | hmem
      · exact absurd hpa hx
      · obtain ⟨b, hb⟩ := ih hmem
        exact ⟨b, by simp [List.find?, Bool.of_not_eq_true hx, hb]⟩

/-- Shape of one successful item rewrite. -/
theorem rewriteItemUri_spec (state : State) (key urlToProxy itemUri newUri : String)
    (h : rewriteItemUri state key urlToProxy itemUri = some newUri) :
    RewrittenUri state key urlToProxy itemUri newUri := by
  obtain ⟨resolved, hres, hmap⟩ := Option.map_eq_some'.mp h
  exact ⟨resolved, hres, hmap.symm, pctDecode_percentEncodeNAN resolved⟩

/-- A successful variant rewrite relates input and output pointwise in
order. -/
theorem rewriteVariants_forall₂ (state : State) (key urlToProxy : String) :
    ∀ vs nvs, rewriteVariants state key urlToProxy vs = some nvs →
      List.Forall₂
        (fun o n => o.attrs = n.attrs ∧ RewrittenUri state key urlToProxy o.uri n.uri)
        vs nvs := by
  intro vs
  induction vs with
  | nil =>
    intro nvs h
    simp only [rewriteVariants, Option.some.injEq] at h
    subst h
    exact List.Forall₂.nil
  | cons v rest ih =>
    intro nvs h
    simp only [rewriteVariants] at h
    cases hi : rewriteItemUri state key urlToProxy v.uri with
    | none => rw [hi] at h; cases h
    | some u =>
      cases hr : rewriteVariants state key urlToProxy rest with
      | none => rw [hi, hr] at h; cases h
      | some tail =>
        rw [hi, hr] at h
        cases h
        exact List.Forall₂.cons
          ⟨rfl, rewriteItemUri_spec state key urlToProxy v.uri u hi⟩ (ih tail hr)

/-- A successful segment rewrite relates input and output pointwise in
order. -/
theorem rewriteSegments_forall₂ (state : State) (key urlToProxy : String) :
    ∀ ss nss, rewriteSegments state key urlToProxy ss = some nss →
      List.Forall₂
        (fun o n => o.attrs = n.attrs ∧ RewrittenUri state key urlToProxy o.uri n.uri)
        ss nss := by
  intro ss
  induction ss with
  | nil =>
    intro nss h
    simp only [rewriteSegments, Option.some.injEq] at h
    subst h
    exact List.Forall₂.nil
  | cons s rest ih =>
    intro nss h
    simp only [rewriteSegments] at h
    cases hi : rewriteItemUri state key urlToProxy s.uri with
    | none => rw [hi] at h; cases h
    | some u =>
      cases hr : rewriteSegments state key urlToProxy rest with
      | none => rw [hi, hr] at h; cases h
      | some tail =>
        rw [hi, hr] at h
        cases h
        exact List.Forall₂.cons
          ⟨rfl, rewriteItemUri_spec state key urlToProxy s.uri u hi⟩ (ih tail hr)

/-! ## Claims -/

/-- C1: evaluating the handler at a request whose target URL fails to
parse (the `Uri::from_str` oracle reports failure, as it does for a URL
with a space in its authority) ends the run in a panic escaping the
handler, not in an HTTP response. -/
theorem C1_malformed_url_panics :
    (proxy ⟨"http", "0.0.0.0", "3000", "localhost:3000", none, "secret"⟩
        ⟨"http://exa mple/", "secret"⟩ none none .err
        (fun _ => none) (fun _ => [])).1 =
      .panicked "Uri::from_str failed" := by
  decide

/-- C4: for every request whose key parameter does not equal the
configured shared secret, the response is 401 Unauthorized with body
"key is invalid" and the request proceeds no further: no recorded network
action happens. -/
theorem C4_key_mismatch_401 (state : State) (params : ProxyParams)
    (uriOracle : Option UriT) (dnsOracle : Option (List IpAddr)) (send : SendResult)
    (parsePl : List Nat → Option Playlist) (writePl : Playlist → List Nat)
    (h : params.key ≠ state.key) :
    proxy state params uriOracle dnsOracle send parsePl writePl =
      (.response ⟨401, [], .str "key is invalid"⟩, ⟨false, none, false⟩) := by
  simp [proxy, h]

/-- Witness for C4 at a concrete mismatched key. -/
theorem C4_key_mismatch_401_witness :
    proxy ⟨"http", "0.0.0.0", "3000", "localhost:3000", none, "secret"⟩
        ⟨"https://ex.com/x", "wrong"⟩ none none .err (fun _ => none) (fun _ => []) =
      (.response ⟨401, [], .str "key is invalid"⟩, ⟨false, none, false⟩) :=
  C4_key_mismatch_401 _ _ _ _ _ _ _ (by decide)

/-- C10: an unauthorized request performs no target-URL parse, no DNS
query and no outbound fetch — the shared-key comparison is the first check
and the handler returns 401 with every recorded network action
unperformed. -/
theorem C10_unauthorized_no_network (state : State) (params : ProxyParams)
    (uriOracle : Option UriT) (dnsOracle : Option (List IpAddr)) (send : SendResult)
    (parsePl : List Nat → Option Playlist) (writePl : Playlist → List Nat)
    (h : params.key ≠ state.key) :
    (proxy state params uriOracle dnsOracle send parsePl writePl).2.uriParsed = false ∧
    (proxy state params uriOracle dnsOracle send parsePl writePl).2.dnsQuery = none ∧
    (proxy state params uriOracle dnsOracle send parsePl writePl).2.fetched = false ∧
    (proxy state params uriOracle dnsOracle send parsePl writePl).1.status? = some 401 := by
  simp [proxy, h, Outcome.status?]

/-- Witness for C10 at a concrete mismatched key. -/
theorem C10_unauthorized_no_network_witness :
    (proxy ⟨"http", "0.0.0.0", "3000", "localhost:3000", none, "secret"⟩
        ⟨"https://ex.com/x", "bad"⟩ (some ⟨some .https, some "ex.com"⟩)
        (some [.v4 ⟨8, 8, 8, 8⟩]) .err (fun _ => none) (fun _ => [])).2.uriParsed = false ∧
    (proxy ⟨"http", "0.0.0.0", "3000", "localhost:3000", none, "secret"⟩
        ⟨"https://ex.com/x", "bad"⟩ (some ⟨some .https, some "ex.com"⟩)
        (some [.v4 ⟨8, 8, 8, 8⟩]) .err (fun _ => none) (fun _ => [])).2.dnsQuery = none ∧
    (proxy ⟨"http", "0.0.0.0", "3000", "localhost:3000", none, "secret"⟩
        ⟨"https://ex.com/x", "bad"⟩ (some ⟨some .https, some "ex.com"⟩)
        (some [.v4 ⟨8, 8, 8, 8⟩]) .err (fun _ => none) (fun _ => [])).2.fetched = false ∧
    (proxy ⟨"http", "0.0.0.0", "3000", "localhost:3000", none, "secret"⟩
        ⟨"https://ex.com/x", "bad"⟩ (some ⟨some .https, some "ex.com"⟩)
        (some [.v4 ⟨8, 8, 8, 8⟩]) .err (fun _ => none) (fun _ => [])).1.status? = some 401 :=
  C10_unauthorized_no_network _ _ _ _ _ _ _ (by decide)

/-- C2: when an authorized, well-formed request reaches DNS resolution and
at least one resolved address is forbidden, the response is the 400 guard
rejection and the outbound fetch is never started — one forbidden address
among several blocks the request. -/
theorem C2_forbidden_address_fail_closed (state : State) (params : ProxyParams)
    (u : UriT) (hst : String) (p : Nat) (addrs : List IpAddr) (send : SendResult)
    (parsePl : List Nat → Option Playlist) (writePl : Playlist → List Nat)
    (hkey : params.key = state.key) (hknz : params.key ≠ "") (hurl : params.url ≠ "")
    (hhost : u.host = some hst) (hport : impliedPort u.scheme = some p)
    (hforb : ∃ a ∈ addrs, IpAddr.forbidden a = true) :
    (proxy state params (some u) (some addrs) send parsePl writePl).1 =
      .response ⟨400, guardHeaders, .empty⟩ ∧
    (proxy state params (some u) (some addrs) send parsePl writePl).2.fetched = false := by
  obtain ⟨a, hfind⟩ := find?_isSome_of_mem hforb
  have h1 : ¬ params.key ≠ state.key := by simp [hkey]
  simp [proxy, h1, hurl, hknz, hhost, hport, hfind]

/-- Witness for C2: a host resolving to a public address and a loopback
address is rejected with the 400 guard response without fetching. -/
theorem C2_forbidden_address_fail_closed_witness :
    (proxy ⟨"http", "0.0.0.0", "3000", "localhost:3000", none, "secret"⟩
        ⟨"https://ex.com/x", "secret"⟩ (some ⟨some .https, some "ex.com"⟩)
        (some [.v4 ⟨8, 8, 8, 8⟩, .v4 ⟨127, 0, 0, 1⟩]) .err
        (fun _ => none) (fun _ => [])).1 =
      .response ⟨400, guardHeaders, .empty⟩ ∧
    (proxy ⟨"http", "0.0.0.0", "3000", "localhost:3000", none, "secret"⟩
        ⟨"https://ex.com/x", "secret"⟩ (some ⟨some .https, some "ex.com"⟩)
        (some [.v4 ⟨8, 8, 8, 8⟩, .v4 ⟨127, 0, 0, 1⟩]) .err
        (fun _ => none) (fun _ => [])).2.fetched = false :=
  C2_forbidden_address_fail_closed _ _ _ "ex.com" 443 _ _ _ _ rfl (by decide) (by decide)
    rfl rfl (by decide)

/-- C3 counterexample: a request with both an empty target URL and an
empty key, against a non-empty configured secret, is answered 401 — the
shared-key comparison runs first — not 400 as the claim requires of the
empty-parameter rejection. -/
theorem C3_counterexample :
    (proxy ⟨"http", "0.0.0.0", "3000", "localhost:3000", none, "secret"⟩
        ⟨"", ""⟩ none none .err (fun _ => none) (fun _ => [])).1.status? = some 401 ∧
    (401 : Nat) ≠ 400 := by
  decide

/-- C3 (amended): the shared-key comparison precedes the empty-parameter
checks — a mismatched key, even an empty one, yields 401; with a matching
key an empty target URL yields 400 and then an empty key yields 400; a
parsed target URL with a host but a disallowed or absent scheme yields
400; an unparseable target URL, a parsed URL without a host, and a DNS
resolution failure end in a panic rather than a 400 response. -/
theorem C3_amended_client_errors (state : State) (params : ProxyParams)
    (uriOracle : Option UriT) (dnsOracle : Option (List IpAddr)) (send : SendResult)
    (parsePl : List Nat → Option Playlist) (writePl : Playlist → List Nat) :
    (params.key ≠ state.key →
      (proxy state params uriOracle dnsOracle send parsePl writePl).1.status? = some 401) ∧
    (params.key = state.key → params.url = "" →
      (proxy state params uriOracle dnsOracle send parsePl writePl).1.status? = some 400) ∧
    (params.key = state.key → params.url ≠ "" → params.key = "" →
      (proxy state params uriOracle dnsOracle send parsePl writePl).1.status? = some 400) ∧
    (params.key = state.key → params.url ≠ "" → params.key ≠ "" → uriOracle = none →
      (proxy state params uriOracle dnsOracle send parsePl writePl).1.isPanicked = true) ∧
    (∀ u, params.key = state.key → params.url ≠ "" → params.key ≠ "" →
      uriOracle = some u → u.host = none →
      (proxy state params uriOracle dnsOracle send parsePl writePl).1.isPanicked = true) ∧
    (∀ u hst, params.key = state.key → params.url ≠ "" → params.key ≠ "" →
      uriOracle = some u → u.host = some hst → impliedPort u.scheme = none →
      (proxy state params uriOracle dnsOracle send parsePl writePl).1.status? = some 400) ∧
    (∀ u hst p, params.key = state.key → params.url ≠ "" → params.key ≠ "" →
      uriOracle = some u → u.host = some hst → impliedPort u.scheme = some p →
      dnsOracle = none →
      (proxy state params uriOracle dnsOracle send parsePl writePl).1.isPanicked = true) := by
  refine ⟨?_, ?_, ?_, ?_, ?_, ?_, ?_⟩
  · intro h
    simp [proxy, h, Outcome.status?]
  · intro hk hu
    have h1 : ¬ params.key ≠ state.key := by simp [hk]
    simp [proxy, h1, hu, Outcome.status?]
  · intro hk hu hke
    have hsk : state.key = "" := by rw [← hk, hke]
    simp [proxy, hu, hke, hsk, Outcome.status?]
  · intro hk hu hke ho
    have h1 : ¬ params.key ≠ state.key := by simp [hk]
    subst ho
    simp [proxy, h1, hu, hke, Outcome.isPanicked]
  · intro u hk hu hke ho hh
    have h1 : ¬ params.key ≠ state.key := by simp [hk]
    subst ho
    simp [proxy, h1, hu, hke, hh, Outcome.isPanicked]
  · intro u hst hk hu hke ho hh hp
    have h1 : ¬ params.key ≠ state.key := by simp [hk]
    subst ho
    simp [proxy, h1, hu, hke, hh, hp, Outcome.status?]
  · intro u hst p hk hu hke ho hh hp hd
    have h1 : ¬ params.key ≠ state.key := by simp [hk]
    subst ho
    subst hd
    simp [proxy, h1, hu, hke, hh, hp, Outcome.isPanicked]

/-- Witness for C3 (amended): with a matching key and an empty target
URL, the response status is 400. -/
theorem C3_amended_client_errors_witness :
    (proxy ⟨"http", "0.0.0.0", "3000", "localhost:3000", none, "secret"⟩
        ⟨"", "secret"⟩ none none .err (fun _ => none) (fun _ => [])).1.status? =
      some 400 :=
  (C3_amended_client_errors _ _ _ _ _ _ _).2.1 rfl rfl

/-- C9: with an authorized request whose parsed target URL carries a host,
scheme http sends the DNS query for port 80, https for port 443, and any
other or absent scheme is answered 400 with no DNS query made. -/
theorem C9_scheme_to_port (state : State) (params : ProxyParams) (u : UriT) (hst : String)
    (dnsOracle : Option (List IpAddr)) (send : SendResult)
    (parsePl : List Nat → Option Playlist) (writePl : Playlist → List Nat)
    (hkey : params.key = state.key) (hknz : params.key ≠ "") (hurl : params.url ≠ "")
    (hhost : u.host = some hst) :
    (u.scheme = some .http →
      (proxy state params (some u) dnsOracle send parsePl writePl).2.dnsQuery =
        some (hst ++ ":" ++ Nat.repr 80)) ∧
    (u.scheme = some .https →
      (proxy state params (some u) dnsOracle send parsePl writePl).2.dnsQuery =
        some (hst ++ ":" ++ Nat.repr 443)) ∧
    (∀ s, u.scheme = some (.other s) →
      (proxy state params (some u) dnsOracle send parsePl writePl).1 =
        .response ⟨400, [], .empty⟩ ∧
      (proxy state params (some u) dnsOracle send parsePl writePl).2.dnsQuery = none) ∧
    (u.scheme = none →
      (proxy state params (some u) dnsOracle send parsePl writePl).1 =
        .response ⟨400, [], .empty⟩ ∧
      (proxy state params (some u) dnsOracle send parsePl writePl).2.dnsQuery = none) := by
  have h1 : ¬ params.key ≠ state.key := by simp [hkey]
  refine ⟨?_, ?_, ?_, ?_⟩
  · intro hs
    cases dnsOracle with
    | none => simp [proxy, h1, hurl, hknz, hhost, hs, impliedPort]
    | some addrs =>
      cases hf : addrs.find? IpAddr.forbidden <;>
        simp [proxy, h1, hurl, hknz, hhost, hs, impliedPort, hf]
  · intro hs
    cases dnsOracle with
    | none => simp [proxy, h1, hurl, hknz, hhost, hs, impliedPort]
    | some addrs =>
      cases hf : addrs.find? IpAddr.forbidden <;>
        simp [proxy, h1, hurl, hknz, hhost, hs, impliedPort, hf]
  · intro s hs
    simp [proxy, h1, hurl, hknz, hhost, hs, impliedPort]
  · intro hs
    simp [proxy, h1, hurl, hknz, hhost, hs, impliedPort]

/-- Witness for C9: an http target is looked up at port 80. -/
theorem C9_scheme_to_port_witness :
    (proxy ⟨"http", "0.0.0.0", "3000", "localhost:3000", none, "secret"⟩
        ⟨"http://ex.com/x", "secret"⟩ (some ⟨some .http, some "ex.com"⟩) none .err
        (fun _ => none) (fun _ => [])).2.dnsQuery =
      some ("ex.com" ++ ":" ++ Nat.repr 80) :=
  (C9_scheme_to_port _ _ _ "ex.com" _ _ _ _ rfl (by decide) (by decide) rfl).1 rfl

/-- C7: every upstream failure is answered 500 — an outbound request
error, a non-200 upstream status, a fully-read body longer than the fixed
ceiling (whose bytes are replaced by a diagnostic string, not forwarded),
and, for a parsed playlist, a missing upstream content-type header. -/
theorem C7_upstream_failures_500 (state : State) (key url : String)
    (parsePl : List Nat → Option Playlist) (writePl : Playlist → List Nat)
    (status : Nat) (ct : Option String) (body : List Nat) :
    fetchStage state key url .err parsePl writePl =
      .response ⟨500, [], .str "failed to perform request on the proxied url"⟩ ∧
    (status ≠ 200 →
      fetchStage state key url (.ok status ct (some body)) parsePl writePl =
        .response ⟨500, [], .str "request to proxied server returned a non 200 status"⟩) ∧
    (body.length > HTTP_BODY_MAX_LENGTH →
      fetchStage state key url (.ok 200 ct (some body)) parsePl writePl =
        .response
          ⟨500, [], .str "content length of proxied request is great than max allowed"⟩) ∧
    (∀ vs nvs, body.length ≤ HTTP_BODY_MAX_LENGTH →
      parsePl body = some (.master vs) →
      rewriteVariants state key url vs = some nvs →
      fetchStage state key url (.ok 200 none (some body)) parsePl writePl =
        .response
          ⟨500, [], .str "proxied url doesn't have the required content-type header"⟩) ∧
    (∀ ss nss, body.length ≤ HTTP_BODY_MAX_LENGTH →
      parsePl body = some (.media ss) →
      rewriteSegments state key url ss = some nss →
      fetchStage state key url (.ok 200 none (some body)) parsePl writePl =
        .response
          ⟨500, [], .str "proxied url doesn't have the required content-type header"⟩) := by
  refine ⟨rfl, ?_, ?_, ?_, ?_⟩
  · intro h
    simp [fetchStage, h]
  · intro h
    simp [fetchStage, h]
  · intro vs nvs hlen hp hrw
    have hnl : ¬ body.length > HTTP_BODY_MAX_LENGTH := by omega
    simp [fetchStage, hnl, hp, rewriteMasterOutcome, hrw]
  · intro ss nss hlen hp hrw
    have hnl : ¬ body.length > HTTP_BODY_MAX_LENGTH := by omega
    simp [fetchStage, hnl, hp, rewriteMediaOutcome, hrw]

/-- Witness for C7: a 404 upstream status and a parsed empty master
playlist without a content-type header are both answered 500. -/
theorem C7_upstream_failures_500_witness :
    fetchStage ⟨"http", "0.0.0.0", "3000", "localhost:3000", none, "k"⟩ "k"
        "https://ex.com/x" (.ok 404 (some "text/html") (some [1, 2]))
        (fun _ => none) (fun _ => []) =
      .response ⟨500, [], .str "request to proxied server returned a non 200 status"⟩ ∧
    fetchStage ⟨"http", "0.0.0.0", "3000", "localhost:3000", none, "k"⟩ "k"
        "https://ex.com/x" (.ok 200 none (some [1, 2]))
        (fun _ => some (.master [])) (fun _ => []) =
      .response ⟨500, [], .str "proxied url doesn't have the required content-type header"⟩ :=
  ⟨(C7_upstream_failures_500 _ _ _ _ _ 404 (some "text/html") [1, 2]).2.1 (by decide),
   (C7_upstream_failures_500 ⟨"http", "0.0.0.0", "3000", "localhost:3000", none, "k"⟩ "k"
      "https://ex.com/x" (fun _ => some (.master [])) (fun _ => []) 200 none
      [1, 2]).2.2.2.1 [] [] (by decide) rfl rfl⟩

/-- C8 counterexample: a fetched body of 50000001 bytes that does not
parse as a playlist is answered 500 (the size ceiling), not 200 as the
claim, quantified over every non-playlist body, requires. -/
theorem C8_counterexample :
    fetchStage ⟨"http", "0.0.0.0", "3000", "localhost:3000", none, "k"⟩ "k"
        "https://ex.com/x"
        (.ok 200 (some "video/mp2t") (some (List.replicate 50000001 0)))
        (fun _ => none) (fun _ => []) =
      .response
        ⟨500, [], .str "content length of proxied request is great than max allowed"⟩ ∧
    (500 : Nat) ≠ 200 := by
  refine ⟨?_, by decide⟩
  generalize hb : List.replicate 50000001 (0 : Nat) = body
  have hlen : body.length > HTTP_BODY_MAX_LENGTH := by
    rw [← hb, List.length_replicate, HTTP_BODY_MAX_LENGTH]
    norm_num
  simp [fetchStage, hlen]

/-- C8 (amended): every fetched body within the 50000000-byte ceiling
that does not parse as a playlist is answered 200 with content-type
application/octet-stream, Accept-Ranges bytes, content-length equal to
the body length, and the body bytes unchanged. -/
theorem C8_amended_binary_passthrough (state : State) (key url : String)
    (ct : Option String) (body : List Nat)
    (parsePl : List Nat → Option Playlist) (writePl : Playlist → List Nat)
    (hpp : parsePl body = none) (hlen : body.length ≤ HTTP_BODY_MAX_LENGTH) :
    fetchStage state key url (.ok 200 ct (some body)) parsePl writePl =
      .response ⟨200,
        [("content-type", "application/octet-stream"),
         ("accept-ranges", "bytes"),
         ("content-length", Nat.repr body.length)],
        .bytes body⟩ := by
  have hnl : ¬ body.length > HTTP_BODY_MAX_LENGTH := by omega
  simp [fetchStage, hnl, hpp]

/-- Witness for C8 (amended) at a concrete three-byte body. -/
theorem C8_amended_binary_passthrough_witness :
    fetchStage ⟨"http", "0.0.0.0", "3000", "localhost:3000", none, "k"⟩ "k"
        "https://ex.com/x" (.ok 200 (some "video/mp2t") (some [7, 8, 9]))
        (fun _ => none) (fun _ => []) =
      .response ⟨200,
        [("content-type", "application/octet-stream"),
         ("accept-ranges", "bytes"),
         ("content-length", Nat.repr 3)],
        .bytes [7, 8, 9]⟩ :=
  C8_amended_binary_passthrough _ _ _ _ _ _ _ rfl (by decide)

/-- C5: a successfully rewritten master playlist has exactly as many
variants as the input, in the same order, each entry unchanged except for
its URI, which becomes
scheme://domain/proxy?key=sharedKey&url=encoded where the url parameter
percent-decodes back to the resolved absolute child URL; the same holds
for the segments of a media playlist. -/
theorem C5_rewrite_round_trip (state : State) (key url : String)
    (vs nvs : List VariantStream) (ss nss : List MediaSegment)
    (hv : rewriteVariants state key url vs = some nvs)
    (hs : rewriteSegments state key url ss = some nss) :
    (nvs.length = vs.length ∧
      List.Forall₂
        (fun o n => o.attrs = n.attrs ∧ RewrittenUri state key url o.uri n.uri) vs nvs) ∧
    (nss.length = ss.length ∧
      List.Forall₂
        (fun o n => o.attrs = n.attrs ∧ RewrittenUri state key url o.uri n.uri) ss nss) := by
  have h1 := rewriteVariants_forall₂ state key url vs nvs hv
  have h2 := rewriteSegments_forall₂ state key url ss nss hs
  exact ⟨⟨h1.length_eq.symm, h1⟩, ⟨h2.length_eq.symm, h2⟩⟩

/-- Witness for C5: one relative variant and one absolute segment, with
the concrete rewritten playlists. -/
theorem C5_rewrite_round_trip_witness :
    (([⟨"http://localhost:3000/proxy?key=k&url=https%3A%2F%2Fex%2Ecom%2Fa%2Fb%2Fseg1%2Ets",
        "A"⟩] : List VariantStream).length =
      ([⟨"seg1.ts", "A"⟩] : List VariantStream).length ∧
      List.Forall₂
        (fun (o n : VariantStream) => o.attrs = n.attrs ∧
          RewrittenUri ⟨"http", "0.0.0.0", "3000", "localhost:3000", none, "k"⟩ "k"
            "https://ex.com/a/b/master.m3u8" o.uri n.uri)
        [⟨"seg1.ts", "A"⟩]
        [⟨"http://localhost:3000/proxy?key=k&url=https%3A%2F%2Fex%2Ecom%2Fa%2Fb%2Fseg1%2Ets",
          "A"⟩]) ∧
    (([⟨"http://localhost:3000/proxy?key=k&url=https%3A%2F%2Fcdn%2Eex%2Ecom%2Fv%2Em3u8",
        "B"⟩] : List MediaSegment).length =
      ([⟨"https://cdn.ex.com/v.m3u8", "B"⟩] : List MediaSegment).length ∧
      List.Forall₂
        (fun (o n : MediaSegment) => o.attrs = n.attrs ∧
          RewrittenUri ⟨"http", "0.0.0.0", "3000", "localhost:3000", none, "k"⟩ "k"
            "https://ex.com/a/b/master.m3u8" o.uri n.uri)
        [⟨"https://cdn.ex.com/v.m3u8", "B"⟩]
        [⟨"http://localhost:3000/proxy?key=k&url=https%3A%2F%2Fcdn%2Eex%2Ecom%2Fv%2Em3u8",
          "B"⟩]) :=
  C5_rewrite_round_trip ⟨"http", "0.0.0.0", "3000", "localhost:3000", none, "k"⟩ "k"
    "https://ex.com/a/b/master.m3u8" [⟨"seg1.ts", "A"⟩]
    [⟨"http://localhost:3000/proxy?key=k&url=https%3A%2F%2Fex%2Ecom%2Fa%2Fb%2Fseg1%2Ets",
      "A"⟩]
    [⟨"https://cdn.ex.com/v.m3u8", "B"⟩]
    [⟨"http://localhost:3000/proxy?key=k&url=https%3A%2F%2Fcdn%2Eex%2Ecom%2Fv%2Em3u8",
      "B"⟩]
    (by decide) (by decide)

/-- C6 counterexample: the code resolves child seg1.ts against target
https://ex.com/a/b/master.m3u8 to https://ex.com/a/b/seg1.ts — only the
final path segment master.m3u8 is dropped — and not to
https://ex.com/a/seg1.ts as the claim's example states. -/
theorem C6_counterexample :
    rewriteChildUri "https://ex.com/a/b/master.m3u8" "seg1.ts" =
      some "https://ex.com/a/b/seg1.ts" ∧
    some "https://ex.com/a/b/seg1.ts" ≠ some ("https://ex.com/a/seg1.ts" : String) := by
  decide

/-- C6 (amended): a child URI that does not parse as an absolute URL is
resolved by parsing the original target URL, dropping its final path
segment and joining the child onto the result with a slash; in
particular, target https://ex.com/a/b/master.m3u8 with child seg1.ts
resolves to https://ex.com/a/b/seg1.ts before rewriting. -/
theorem C6_amended_relative_resolution (target child : String) (u : UrlM)
    (hchild : UrlM.parse child = none) (htarget : UrlM.parse target = some u) :
    rewriteChildUri target child = some (u.popSegment.toString ++ "/" ++ child) ∧
    rewriteChildUri "https://ex.com/a/b/master.m3u8" "seg1.ts" =
      some "https://ex.com/a/b/seg1.ts" := by
  constructor
  · simp [rewriteChildUri, hchild, htarget]
  · decide

/-- Witness for C6 (amended) at the claim's own example. -/
theorem C6_amended_relative_resolution_witness :
    rewriteChildUri "https://ex.com/a/b/master.m3u8" "seg1.ts" =
      some ((UrlM.popSegment
          ⟨"https", "ex.com", none, ["a", "b", "master.m3u8"], none⟩).toString ++
        "/" ++ "seg1.ts") ∧
    rewriteChildUri "https://ex.com/a/b/master.m3u8" "seg1.ts" =
      some "https://ex.com/a/b/seg1.ts" :=
  C6_amended_relative_resolution "https://ex.com/a/b/master.m3u8" "seg1.ts"
    ⟨"https", "ex.com", none, ["a", "b", "master.m3u8"], none⟩ (by decide) (by decide)
